import Mathlib

set_option linter.unusedVariables false

/-!
# Verification of the horovod-libra GPU execution layer

Shallow embedding of `src/horovod/common/ops/gpu_operations.cc` and the
framework-adapter fragments of `src/horovod/tensorflow/mpi_ops.cc`, together
with theorems settling the specification claims about stream-slot selection,
rotation of the generation/assignment pointers, stream-table idempotence,
finalization, status conversion, and zero-initialized allocation.

Machine integers are modelled as `Int`/`Nat` (C++ `%` on non-negative
operands agrees with `Int.tmod`), nullable pointers as `Option`, thrown C++
exceptions as `Except.error`, and the GPU stream tables / global engine
state as explicit state records threaded through each operation.
-/

namespace HorovodLibra

/-! ## Status model

`horovod::common::Status` (used by `gpu_operations.cc` and as the return
type of the conversions in `mpi_ops.cc`) and the TensorFlow `Status` with
its error codes. -/

/-- The `horovod::common::StatusType` enumeration. -/
inductive StatusType where
  | OK
  | UNKNOWN_ERROR
  | PRECONDITION_ERROR
  | ABORTED
  | INVALID_ARGUMENT
  | IN_PROGRESS
deriving DecidableEq, Repr

/-- `horovod::common::Status`: a status type together with a reason text. -/
structure CommonStatus where
  type : StatusType
  reason : String
deriving DecidableEq, Repr

/-- `common::Status::OK()` -/
def CommonStatus.okS : CommonStatus := ⟨StatusType.OK, ""⟩

/-- `common::Status::UnknownError(msg)` -/
def CommonStatus.unknownError (msg : String) : CommonStatus :=
  ⟨StatusType.UNKNOWN_ERROR, msg⟩

/-- `common::Status::PreconditionError(msg)` -/
def CommonStatus.preconditionError (msg : String) : CommonStatus :=
  ⟨StatusType.PRECONDITION_ERROR, msg⟩

/-- `common::Status::Aborted(msg)` -/
def CommonStatus.abortedS (msg : String) : CommonStatus :=
  ⟨StatusType.ABORTED, msg⟩

/-- `common::Status::InvalidArgument(msg)` -/
def CommonStatus.invalidArgument (msg : String) : CommonStatus :=
  ⟨StatusType.INVALID_ARGUMENT, msg⟩

/-- `common::Status::InProgress()` -/
def CommonStatus.inProgress : CommonStatus := ⟨StatusType.IN_PROGRESS, ""⟩

/-- The TensorFlow `error::Code` values this adapter distinguishes.
`CANCELLED` and `INTERNAL` stand in for the remaining codes that fall into
the `default` branch of `ConvertStatus(const Status&)`. -/
inductive TFCode where
  | OK
  | UNKNOWN
  | FAILED_PRECONDITION
  | ABORTED
  | INVALID_ARGUMENT
  | CANCELLED
  | INTERNAL
deriving DecidableEq, Repr

/-- The TensorFlow `Status`: an error code and a message. -/
structure TFStatus where
  code : TFCode
  error_message : String
deriving DecidableEq, Repr

/-- `mpi_ops.cc` lines 89-104, `Status ConvertStatus(const common::Status&)`:
engine status to framework status. -/
def ConvertStatusCommonToTF (status : CommonStatus) : TFStatus :=
  match status.type with
  | StatusType.OK => ⟨TFCode.OK, ""⟩
  | StatusType.UNKNOWN_ERROR => ⟨TFCode.UNKNOWN, status.reason⟩
  | StatusType.PRECONDITION_ERROR => ⟨TFCode.FAILED_PRECONDITION, status.reason⟩
  | StatusType.ABORTED => ⟨TFCode.ABORTED, status.reason⟩
  | StatusType.INVALID_ARGUMENT => ⟨TFCode.INVALID_ARGUMENT, status.reason⟩
  | _ => ⟨TFCode.UNKNOWN, "Unknown error."⟩

/-- `mpi_ops.cc` lines 106-121, `common::Status ConvertStatus(const Status&)`:
framework status to engine status. -/
def ConvertStatusTFToCommon (status : TFStatus) : CommonStatus :=
  match status.code with
  | TFCode.OK => CommonStatus.okS
  | TFCode.UNKNOWN => CommonStatus.unknownError status.error_message
  | TFCode.FAILED_PRECONDITION => CommonStatus.preconditionError status.error_message
  | TFCode.ABORTED => CommonStatus.abortedS status.error_message
  | TFCode.INVALID_ARGUMENT => CommonStatus.invalidArgument status.error_message
  | _ => CommonStatus.unknownError "Unknown error."

/-! ## Data model for the GPU execution layer -/

/-- `CPU_DEVICE_ID` from `horovod/common/common.h`. -/
def CPU_DEVICE_ID : Int := -1

/-- One communication request (`horovod::common::TensorTableEntry`),
restricted to the fields `gpu_operations.cc` reads: the tensor name, the
owning device, and whether the completion callback is non-null (a null
callback encodes a Join request). -/
structure TensorTableEntry where
  tensor_name : String
  device : Int
  hasCallback : Bool
deriving DecidableEq, Repr

/-- Placeholder entry used to model C++ `entries[0]` on the (undefined
behaviour) empty-vector case; every theorem about slot selection is stated
on non-empty entry lists, where it is never consulted. -/
def defaultEntry : TensorTableEntry := ⟨"", 0, false⟩

/-- The lazily created stream table `gpu_context_->streams`, indexed by
(generation = `current_nccl_stream`, slot index).  A stream handle is a
`Nat`; `none` models a `nullptr` (not-yet-created) `gpuStream_t`.  The
`next` counter supplies fresh handles for `StreamCreate`. -/
structure StreamTable where
  table : Nat → Int → Option Nat
  next : Nat

/-- The all-null stream table of a fresh process. -/
def emptyStreamTable : StreamTable := ⟨fun _ _ => none, 0⟩

/-- `gpu_context_->StreamCreate(&streams[gen][slot])`: stores a fresh
handle at the given key. -/
def StreamCreateAt (tbl : StreamTable) (gen : Nat) (slot : Int) : StreamTable :=
  { table := fun g s => if g = gen ∧ s = slot then some tbl.next else tbl.table g s,
    next := tbl.next + 1 }

/-- The check-then-create stream lookup of `InitGPU`
(`gpu_operations.cc` lines 49-52): read `streams[gen][slot]`; if the stored
handle is null, create the stream; return the handle now stored there. -/
def getOrCreateStream (tbl : StreamTable) (gen : Nat) (slot : Int) :
    StreamTable × Nat :=
  match tbl.table gen slot with
  | some h => (tbl, h)
  | none => (StreamCreateAt tbl gen slot, tbl.next)

/-- The fields of `HorovodGlobalState` that `gpu_operations.cc` touches. -/
structure HorovodGlobalState where
  stream_assignment : List Int
  current_gpu_stream : Nat
  current_nccl_stream : Nat
  num_nccl_streams : Nat
  stream_index : Int
  timelineInitialized : Bool
deriving DecidableEq, Repr

/-- The per-batch mutable fields of `GPUOpContext`: the event queue, the
chosen stream (as its (generation, slot) key — the C++ object stores a
pointer into the stream table), and the nullable host scratch buffer. -/
structure GPUOpContext where
  event_queue : List (String × Nat)
  stream : Nat × Int
  host_buffer : Option Unit
deriving DecidableEq, Repr

/-- An initial per-batch context: empty queue, stream key (0,0), no host
buffer. -/
def defaultOpCtx : GPUOpContext := ⟨[], (0, 0), none⟩

/-- `gpu_context_->RecordEvent(event_queue, name, stream)`: appends a
(name, event) marker to the queue.  Event identities are modelled by the
queue position at recording time. -/
def RecordEvent (event_queue : List (String × Nat)) (name : String)
    (stream : Nat × Int) : List (String × Nat) :=
  event_queue ++ [(name, event_queue.length)]

/-! ## GPUOpContext operations (`gpu_operations.cc`) -/

/-- `GPUOpContext::InitGPU` (lines 36-54).  Selects the stream slot
(device id; overridden by the assignment-table slot for allreduce, and by
the hard-coded slot 8 for parallel allreduce), then ensures the stream for
(`current_nccl_stream`, slot) exists via check-then-create.  Returns the
(unchanged) global state, the updated stream table, and the selected slot.
`SetDevice` is a device-side effect with no bearing on the modelled
state. -/
def InitGPU (gs : HorovodGlobalState) (tbl : StreamTable)
    (entries : List TensorTableEntry) (is_allreduce is_para : Bool) :
    HorovodGlobalState × StreamTable × Int :=
  let first_entry := entries.headD defaultEntry
  let stream_index : Int := first_entry.device
  let stream_index : Int :=
    if is_allreduce then
      let si := gs.stream_assignment.getD gs.current_gpu_stream 0
      if is_para then 8 else si
    else stream_index
  let res := getOrCreateStream tbl gs.current_nccl_stream stream_index
  (gs, res.1, stream_index)

/-- In `GPUOpContext::InitNewStream` (lines 57-64) the guard tests
`new_stream_ == nullptr` where `new_stream_` is
`&gpu_context_->streams[...][times]` — the address of an array element,
which is never the null pointer.  The C++ condition is therefore the
constant false, which this definition records. -/
def streamSlotAddrIsNull (gen : Nat) (slot : Int) : Bool := false

/-- `GPUOpContext::InitNewStream` (lines 57-64): remaps `times` to
`(times % 10) + 3` (C++ `%` is truncated division, `Int.tmod`), takes the
address of that stream-table cell, “creates” the stream only if that
address is null, and stores the cell address in `this->new_stream`.
Returns the stream table, the selected slot index, and whether
`StreamCreate` was invoked. -/
def InitNewStream (gs : HorovodGlobalState) (tbl : StreamTable)
    (times : Int) : StreamTable × Int × Bool :=
  let times := times.tmod 10 + 3
  if streamSlotAddrIsNull gs.current_nccl_stream times then
    (StreamCreateAt tbl gs.current_nccl_stream times, times, true)
  else
    (tbl, times, false)

/-- `GPUOpContext::InitGPUQueue` (lines 67-90): resets the event queue,
selects the slot with the same rule as `InitGPU` (additionally publishing
it in `global_state_->stream_index` for allreduce), stores the stream-cell
key in `this->stream`, records a `QUEUE` marker when the timeline is
initialized, and — for allreduce only — advances `current_gpu_stream` by
one modulo the assignment-table size.  The `printf` calls are pure
logging. -/
def InitGPUQueue (gs : HorovodGlobalState) (ctx : GPUOpContext)
    (entries : List TensorTableEntry) (is_allreduce is_para : Bool) :
    HorovodGlobalState × GPUOpContext :=
  let event_queue : List (String × Nat) := []
  let stream_index : Int := (entries.headD defaultEntry).device
  let stream_index : Int :=
    if is_allreduce then
      let si := gs.stream_assignment.getD gs.current_gpu_stream 0
      if is_para then 8 else si
    else stream_index
  let gs := if is_allreduce then { gs with stream_index := stream_index } else gs
  let streamKey : Nat × Int := (gs.current_nccl_stream, stream_index)
  let event_queue :=
    if gs.timelineInitialized then RecordEvent event_queue "QUEUE" streamKey
    else event_queue
  let gs :=
    if is_allreduce then
      { gs with current_gpu_stream :=
          (gs.current_gpu_stream + 1) % gs.stream_assignment.length }
    else gs
  (gs, { ctx with event_queue := event_queue, stream := streamKey })

/-! ## Finalization (`FinalizeGPUQueue` and the background task) -/

/-- The closure submitted to `finalizer_thread_pool.execute` in
`FinalizeGPUQueue` (lines 108-124): the by-value captures it runs on.
`error_check` models the captured `error_check_callback` by the device
fault it will report when probed during the event wait (`none` = no
fault). -/
structure FinalizerTask where
  entries : List TensorTableEntry
  cpu_buffer : Option Unit
  free_host_buffer : Bool
  evt_queue : List (String × Nat)
  error_check : Option String
deriving DecidableEq, Repr

/-- A vacuous task, used only as the `List.headD` fallback. -/
def defaultTask : FinalizerTask := ⟨[], none, false, [], none⟩

/-- `GPUOpContext::FinalizeGPUQueue` (lines 92-131): records the final
marker with the empty name on the batch's stream, captures the host buffer
pointer, the event queue and the error-check callback into a task, submits
that task to the background pool (modelled as appending to the pool's task
list — the task is not executed here), advances `current_nccl_stream` by
one modulo `num_nccl_streams`, and returns `Status::InProgress()`.  The
fusion-buffer `shared_ptr` claim keeps the staging buffer alive and has no
further effect on the modelled state. -/
def FinalizeGPUQueue (gs : HorovodGlobalState) (ctx : GPUOpContext)
    (entries : List TensorTableEntry) (pool : List FinalizerTask)
    (free_host_buffer : Bool) (error_check_callback : Option String) :
    HorovodGlobalState × List FinalizerTask × CommonStatus :=
  let event_queue := RecordEvent ctx.event_queue "" ctx.stream
  let cpu_buffer := ctx.host_buffer
  let task : FinalizerTask :=
    { entries := entries, cpu_buffer := cpu_buffer,
      free_host_buffer := free_host_buffer, evt_queue := event_queue,
      error_check := error_check_callback }
  let pool := pool ++ [task]
  let gs := { gs with current_nccl_stream :=
      (gs.current_nccl_stream + 1) % gs.num_nccl_streams }
  (gs, pool, CommonStatus.inProgress)

/-- Modelled from the spec: `GPUContext::WaitForEvents` is declared in
`gpu_operations.h` / implemented in a GPU-context source file that is not
part of this repository snapshot.  Per the spec (§4.4 step 2) it waits for
every recorded event in FIFO order, and a hardware error discovered by a
completion probe is surfaced via the error-check callback — in C++ this
surfaces as a thrown exception escaping the wait, modelled as
`Except.error`.  With no fault it returns normally. -/
def WaitForEvents (evt_queue : List (String × Nat))
    (error_check_callback : Option String) : Except String Unit :=
  match error_check_callback with
  | some fault => Except.error fault
  | none => Except.ok ()

/-- What a finalizer task did when it ran to completion: whether
`free(cpu_buffer)` executed, and the (tensor-name, status) pairs passed to
the completion callbacks it invoked, in batch order. -/
structure TaskOutcome where
  freed_host_buffer : Bool
  callbacks : List (String × CommonStatus)
deriving DecidableEq, Repr

/-- Running the finalizer closure of lines 109-124: wait for the recorded
events (an escaping exception aborts the whole task), then free the host
buffer iff `free_host_buffer && cpu_buffer != nullptr`, then invoke each
non-null callback with `Status::OK()` — the only status the loop ever
passes.  Entries with a null callback (Join requests) are skipped. -/
def runFinalizerTask (t : FinalizerTask) : Except String TaskOutcome :=
  match WaitForEvents t.evt_queue t.error_check with
  | Except.error e => Except.error e
  | Except.ok _ =>
    let freed := t.free_host_buffer && t.cpu_buffer.isSome
    let callbacks := t.entries.filterMap (fun e =>
      if e.hasCallback then some (e.tensor_name, CommonStatus.okS) else none)
    Except.ok { freed_host_buffer := freed, callbacks := callbacks }

/-! ## TensorFlow adapter: `AllocateZeros` (`mpi_ops.cc` lines 300-341) -/

/-- The `horovod::common::DataType` enumeration (the cases of the switch in
`GetTFDataType`). -/
inductive HvdDataType where
  | HOROVOD_UINT8
  | HOROVOD_INT8
  | HOROVOD_UINT16
  | HOROVOD_INT16
  | HOROVOD_INT32
  | HOROVOD_INT64
  | HOROVOD_FLOAT16
  | HOROVOD_FLOAT32
  | HOROVOD_FLOAT64
  | HOROVOD_BOOL
deriving DecidableEq, Repr

/-- The TensorFlow `DataType` values produced by `GetTFDataType`. -/
inductive TFDataType where
  | DT_UINT8
  | DT_INT8
  | DT_UINT16
  | DT_INT16
  | DT_INT32
  | DT_INT64
  | DT_HALF
  | DT_FLOAT
  | DT_DOUBLE
  | DT_BOOL
deriving DecidableEq, Repr

/-- `mpi_ops.cc` lines 62-87, `GetTFDataType`.  Every `common::DataType`
value is one of the ten listed cases, so the `default: throw` branch of the
switch is unreachable and the function is total. -/
def GetTFDataType (dtype : HvdDataType) : TFDataType :=
  match dtype with
  | HvdDataType.HOROVOD_UINT8 => TFDataType.DT_UINT8
  | HvdDataType.HOROVOD_INT8 => TFDataType.DT_INT8
  | HvdDataType.HOROVOD_UINT16 => TFDataType.DT_UINT16
  | HvdDataType.HOROVOD_INT16 => TFDataType.DT_INT16
  | HvdDataType.HOROVOD_INT32 => TFDataType.DT_INT32
  | HvdDataType.HOROVOD_INT64 => TFDataType.DT_INT64
  | HvdDataType.HOROVOD_FLOAT16 => TFDataType.DT_HALF
  | HvdDataType.HOROVOD_FLOAT32 => TFDataType.DT_FLOAT
  | HvdDataType.HOROVOD_FLOAT64 => TFDataType.DT_DOUBLE
  | HvdDataType.HOROVOD_BOOL => TFDataType.DT_BOOL

/-- A host-observable view of one allocated device/host buffer: the bytes
the host currently sees, plus full-buffer writes enqueued on the device
stream that the host cannot yet observe. -/
structure HostVisibleBuffer where
  bytes : List Nat
  pendingOps : List (List Nat)
deriving DecidableEq, Repr

/-- `gpuMemsetAsync(ptr, v, size, stream)`: enqueues a full-buffer fill on
the stream; not yet host-visible. -/
def gpuMemsetAsyncModel (b : HostVisibleBuffer) (v : Nat) : HostVisibleBuffer :=
  { b with pendingOps := b.pendingOps ++ [List.replicate b.bytes.length v] }

/-- Host `memset(ptr, v, size)`: immediately visible. -/
def memsetModel (b : HostVisibleBuffer) (v : Nat) : HostVisibleBuffer :=
  { b with bytes := List.replicate b.bytes.length v }

/-- `stream->BlockHostUntilDone()`: drains the pending stream work, making
every enqueued write host-visible, in order. -/
def BlockHostUntilDone (b : HostVisibleBuffer) : HostVisibleBuffer :=
  { bytes := b.pendingOps.foldl (fun _cur w => w) b.bytes, pendingOps := [] }

/-- The slice of `OpKernelContext` that `TFOpContext::AllocateZeros`
consults: the device the kernel runs on (the result of `GetDeviceID`),
whether `op_device_context()` is non-null, and whether `allocate_temp`
will succeed. -/
structure OpKernelContext where
  device : Int
  hasDeviceContext : Bool
  allocOk : Bool
deriving DecidableEq, Repr

/-- `mpi_ops.cc` lines 349-356, `GetDeviceID`: the GPU id of the kernel's
device, or `CPU_DEVICE_ID`; model state records the result directly. -/
def GetDeviceID (context : OpKernelContext) : Int := context.device

/-- `context->allocate_temp(...)`: succeeds when the context can allocate
and the requested element count is non-negative. -/
def allocate_temp (context : OpKernelContext) (num_elements : Int) : TFStatus :=
  if context.allocOk && decide (0 ≤ num_elements) then ⟨TFCode.OK, ""⟩
  else ⟨TFCode.INVALID_ARGUMENT, "allocation failed"⟩

/-- The observable result of `AllocateZeros`: the converted status and, when
the status was ok, the buffer backing the returned `TFTensor` (the
`shared_ptr` assigned at line 329 aliases `zero_tensor`'s storage, so the
caller observes the post-`BlockHostUntilDone` state of that storage). -/
structure AllocZerosResult where
  status : CommonStatus
  tensor : Option HostVisibleBuffer
deriving DecidableEq, Repr

/-- `TFOpContext::AllocateZeros` (`mpi_ops.cc` lines 300-341): allocate a
temp tensor (`raw` is its arbitrary initial contents), zero it with
`gpuMemsetAsync` on the kernel's stream when on a device and with a host
`memset` otherwise, assign the output tensor when the allocation status is
ok, then `BlockHostUntilDone` whenever the kernel has a device context, and
return the allocation status converted to a `common::Status`. -/
def AllocateZeros (context : OpKernelContext) (num_elements : Int)
    (dtype : HvdDataType) (raw : List Nat) : AllocZerosResult :=
  let _tf_data_type := GetTFDataType dtype
  let device_ := GetDeviceID context
  let status := allocate_temp context num_elements
  let zero_tensor : HostVisibleBuffer := { bytes := raw, pendingOps := [] }
  let zero_tensor :=
    if device_ ≠ CPU_DEVICE_ID then gpuMemsetAsyncModel zero_tensor 0
    else memsetModel zero_tensor 0
  let tensor_assigned := status.code = TFCode.OK
  let zero_tensor :=
    if context.hasDeviceContext then BlockHostUntilDone zero_tensor
    else zero_tensor
  { status := ConvertStatusTFToCommon status,
    tensor := if tensor_assigned then some zero_tensor else none }

/-! ## Shared sample inputs -/

/-- A concrete global state used by counterexamples and witnesses. -/
def sampleGS : HorovodGlobalState :=
  { stream_assignment := [4, 5, 6], current_gpu_stream := 0,
    current_nccl_stream := 0, num_nccl_streams := 2, stream_index := 0,
    timelineInitialized := false }

/-! ## Claim theorems -/

/-- C2: for every batch, `FinalizeGPUQueue` records a final marker with an
empty name on the batch's stream, submits exactly one finalization task to
the background pool (the task is appended, never executed, on the calling
thread), and returns an in-progress status — never a terminal OK or error
status. -/
theorem finalize_submits_one_task_in_progress
    (gs : HorovodGlobalState) (ctx : GPUOpContext)
    (entries : List TensorTableEntry) (pool : List FinalizerTask)
    (fhb : Bool) (ec : Option String) :
    ((FinalizeGPUQueue gs ctx entries pool fhb ec).2.2).type
        = StatusType.IN_PROGRESS
    ∧ (FinalizeGPUQueue gs ctx entries pool fhb ec).2.1.length
        = pool.length + 1
    ∧ ∃ t, (FinalizeGPUQueue gs ctx entries pool fhb ec).2.1 = pool ++ [t]
        ∧ t.entries = entries
        ∧ ∃ evt, t.evt_queue = ctx.event_queue ++ [("", evt)] := by
  refine ⟨rfl, by simp [FinalizeGPUQueue], ?_⟩
  exact ⟨_, rfl, rfl, ctx.event_queue.length, rfl⟩

/-- C3 counterexample: with `useDedicatedSlot` (`is_para`) set but
`isReduction` (`is_allreduce`) clear, `InitGPU` selects the first entry's
device id (here 5), not the dedicated-reduction slot 8 — the `is_para`
override is nested inside the `is_allreduce` branch of the source. -/
theorem slot_selection_claim_counterexample :
    (InitGPU sampleGS emptyStreamTable [⟨"x", 5, true⟩] false true).2.2 = 5
    ∧ (InitGPU sampleGS emptyStreamTable [⟨"x", 5, true⟩] false true).2.2 ≠ 8 := by
  exact ⟨rfl, by decide⟩

/-- The slot-selection rule in the words of the amended claim: the
dedicated slot 8 when both `isReduction` and `useDedicatedSlot` are set,
else the assignment-table slot at the rotation pointer when `isReduction`
is set, else the first entry's device id. -/
def slotSelectionSpec (gs : HorovodGlobalState) (first_entry : TensorTableEntry)
    (is_allreduce is_para : Bool) : Int :=
  if is_allreduce && is_para then 8
  else if is_allreduce then gs.stream_assignment.getD gs.current_gpu_stream 0
  else first_entry.device

/-- C3 amended: for every call to `InitGPU` or `InitGPUQueue` on a
non-empty entries list, the selected stream slot is the dedicated slot 8
when both `isReduction` and `useDedicatedSlot` are set; otherwise the
rotating slot read from the assignment table at the current rotation
pointer when `isReduction` is set; otherwise the first entry's device
id. -/
theorem slot_selection_amended (gs : HorovodGlobalState) (tbl : StreamTable)
    (ctx : GPUOpContext) (e : TensorTableEntry) (rest : List TensorTableEntry)
    (is_allreduce is_para : Bool) :
    (InitGPU gs tbl (e :: rest) is_allreduce is_para).2.2
        = slotSelectionSpec gs e is_allreduce is_para
    ∧ ((InitGPUQueue gs ctx (e :: rest) is_allreduce is_para).2).stream.2
        = slotSelectionSpec gs e is_allreduce is_para := by
  cases is_allreduce <;> cases is_para <;>
    simp [InitGPU, InitGPUQueue, slotSelectionSpec]

/-- C4 counterexample: a reduction batch that begins via `InitGPU` leaves
the rotating assignment pointer `current_gpu_stream` unchanged (here 0),
whereas the claim requires it advanced by one modulo the table size (to
1): the advance lives in `InitGPUQueue`, not `InitGPU`. -/
theorem pointer_advance_claim_counterexample :
    ((InitGPU sampleGS emptyStreamTable [⟨"y", 3, true⟩] true false).1).current_gpu_stream = 0
    ∧ (0 + 1) % sampleGS.stream_assignment.length = 1
    ∧ (0 : Nat) ≠ 1 := by
  exact ⟨rfl, rfl, by decide⟩

/-- C4 amended: `InitGPU` never modifies the global state (in particular
the rotating assignment pointer), for reduction and non-reduction batches
alike; the pointer is advanced by one modulo the assignment-table size
exactly once per reduction batch by `InitGPUQueue`, and left unchanged by
`InitGPUQueue` for non-reduction batches. -/
theorem pointer_advance_amended (gs : HorovodGlobalState) (tbl : StreamTable)
    (ctx : GPUOpContext) (entries : List TensorTableEntry) (is_para : Bool) :
    (InitGPU gs tbl entries true is_para).1 = gs
    ∧ (InitGPU gs tbl entries false is_para).1 = gs
    ∧ ((InitGPUQueue gs ctx entries true is_para).1).current_gpu_stream
        = (gs.current_gpu_stream + 1) % gs.stream_assignment.length
    ∧ ((InitGPUQueue gs ctx entries false is_para).1).current_gpu_stream
        = gs.current_gpu_stream := by
  refine ⟨rfl, rfl, ?_, rfl⟩
  cases is_para <;> simp [InitGPUQueue]

/-- `getOrCreateStream` on a key whose handle exists returns it and leaves
the table untouched. -/
theorem getOrCreateStream_of_some {tbl : StreamTable} {gen : Nat} {slot : Int}
    {h : Nat} (hc : tbl.table gen slot = some h) :
    getOrCreateStream tbl gen slot = (tbl, h) := by
  unfold getOrCreateStream
  rw [hc]

/-- `getOrCreateStream` on a null cell creates the stream there. -/
theorem getOrCreateStream_of_none {tbl : StreamTable} {gen : Nat} {slot : Int}
    (hc : tbl.table gen slot = none) :
    getOrCreateStream tbl gen slot = (StreamCreateAt tbl gen slot, tbl.next) := by
  unfold getOrCreateStream
  rw [hc]

/-- `StreamCreateAt` stores the fresh handle at its key. -/
theorem StreamCreateAt_table_self (tbl : StreamTable) (gen : Nat) (slot : Int) :
    (StreamCreateAt tbl gen slot).table gen slot = some tbl.next := by
  simp [StreamCreateAt]

/-- `StreamCreateAt` on a cell that was null preserves every
already-stored handle. -/
theorem StreamCreateAt_table_mono (tbl : StreamTable) (gen : Nat) (slot : Int)
    (hc : tbl.table gen slot = none)
    (g : Nat) (s : Int) (h : Nat) (hgs : tbl.table g s = some h) :
    (StreamCreateAt tbl gen slot).table g s = some h := by
  by_cases hk : g = gen ∧ s = slot
  · obtain ⟨hg, hs⟩ := hk
    subst hg; subst hs
    rw [hc] at hgs
    cases hgs
  · simp [StreamCreateAt, if_neg hk]
    exact hgs

/-- C6: the stream-table lookup of `InitGPU` is idempotent — looking a key
up twice equals looking it up once (same handle, no state change on the
second lookup); the first lookup on a null cell creates the stream there
via check-then-create; and no lookup deletes or replaces an existing
stream handle. -/
theorem stream_lookup_idempotent (tbl : StreamTable) (gen : Nat) (slot : Int) :
    getOrCreateStream (getOrCreateStream tbl gen slot).1 gen slot
        = getOrCreateStream tbl gen slot
    ∧ (tbl.table gen slot = none →
        ((getOrCreateStream tbl gen slot).1.table gen slot = some tbl.next
          ∧ (getOrCreateStream tbl gen slot).2 = tbl.next))
    ∧ (∀ g s h, tbl.table g s = some h →
        (getOrCreateStream tbl gen slot).1.table g s = some h) := by
  cases hc : tbl.table gen slot with
  | some h0 =>
      rw [getOrCreateStream_of_some hc]
      refine ⟨getOrCreateStream_of_some hc, ?_, ?_⟩
      · intro hnone
        simp at hnone
      · intro g s h hgs
        exact hgs
  | none =>
      rw [getOrCreateStream_of_none hc]
      refine ⟨?_, ?_, ?_⟩
      · exact getOrCreateStream_of_some (StreamCreateAt_table_self tbl gen slot)
      · intro _
        exact ⟨StreamCreateAt_table_self tbl gen slot, rfl⟩
      · intro g s h hgs
        exact StreamCreateAt_table_mono tbl gen slot hc g s h hgs

/-- C6 witness: on the empty table and key (0, 0), the second lookup
equals the first and the first lookup created handle 0 at the key. -/
theorem stream_lookup_idempotent_witness :
    getOrCreateStream (getOrCreateStream emptyStreamTable 0 0).1 0 0
        = getOrCreateStream emptyStreamTable 0 0
    ∧ ((getOrCreateStream emptyStreamTable 0 0).1.table 0 0 = some 0
        ∧ (getOrCreateStream emptyStreamTable 0 0).2 = 0) :=
  ⟨(stream_lookup_idempotent emptyStreamTable 0 0).1,
   (stream_lookup_idempotent emptyStreamTable 0 0).2.1 rfl⟩

/-- C10: for every non-negative `times`, `InitNewStream` selects slot
`(times % 10) + 3`, which lies in [3, 12]; the stream-creation branch is
never executed (its guard tests the address of an array element, never
null) and the stream table is returned unchanged. -/
theorem init_new_stream_slot_range (gs : HorovodGlobalState)
    (tbl : StreamTable) (times : Int) (h : 0 ≤ times) :
    (InitNewStream gs tbl times).2.1 = times.tmod 10 + 3
    ∧ 3 ≤ (InitNewStream gs tbl times).2.1
    ∧ (InitNewStream gs tbl times).2.1 ≤ 12
    ∧ (InitNewStream gs tbl times).2.2 = false
    ∧ (InitNewStream gs tbl times).1 = tbl := by
  have hb : 3 ≤ times.tmod 10 + 3 ∧ times.tmod 10 + 3 ≤ 12 := by
    rw [Int.tmod_eq_emod h (by norm_num)]
    omega
  exact ⟨rfl, hb.1, hb.2, rfl, rfl⟩

/-- C10 witness: at `times = 17` the selected slot is `17 % 10 + 3 = 10`,
inside [3, 12], with no stream created. -/
theorem init_new_stream_slot_range_witness :
    (InitNewStream sampleGS emptyStreamTable 17).2.1 = Int.tmod 17 10 + 3
    ∧ 3 ≤ (InitNewStream sampleGS emptyStreamTable 17).2.1
    ∧ (InitNewStream sampleGS emptyStreamTable 17).2.1 ≤ 12
    ∧ (InitNewStream sampleGS emptyStreamTable 17).2.2 = false
    ∧ (InitNewStream sampleGS emptyStreamTable 17).1 = emptyStreamTable :=
  init_new_stream_slot_range sampleGS emptyStreamTable 17 (by norm_num)

/-- One `FinalizeGPUQueue` hand-off viewed only through its effect on the
global state (the context, entries, pool and callback do not influence
that effect). -/
def finalizeStep (gs : HorovodGlobalState) : HorovodGlobalState :=
  (FinalizeGPUQueue gs defaultOpCtx [] [] true none).1

/-- The global state after `k` consecutive batches are finalized. -/
def iterFinalize : Nat → HorovodGlobalState → HorovodGlobalState
  | 0, gs => gs
  | Nat.succ k, gs => iterFinalize k (finalizeStep gs)

/-- Across `k` consecutive finalized batches the generation index walks
`+k` modulo the configured stream count. -/
theorem iterFinalize_current_nccl : ∀ (k : Nat) (gs : HorovodGlobalState),
    0 < gs.num_nccl_streams → gs.current_nccl_stream < gs.num_nccl_streams →
    (iterFinalize k gs).current_nccl_stream
      = (gs.current_nccl_stream + k) % gs.num_nccl_streams
  | 0, gs, _hG, hlt => by
      simp [iterFinalize, Nat.mod_eq_of_lt hlt]
  | Nat.succ k, gs, hG, hlt => by
      have hnum : (finalizeStep gs).num_nccl_streams = gs.num_nccl_streams := rfl
      have hcur : (finalizeStep gs).current_nccl_stream
          = (gs.current_nccl_stream + 1) % gs.num_nccl_streams := rfl
      have ih := iterFinalize_current_nccl k (finalizeStep gs)
        (by rw [hnum]; exact hG)
        (by rw [hnum, hcur]; exact Nat.mod_lt _ hG)
      show (iterFinalize k (finalizeStep gs)).current_nccl_stream = _
      rw [ih, hnum, hcur, Nat.mod_add_mod]
      congr 1
      omega

/-- C5: each `FinalizeGPUQueue` call advances the generation index
(`current_nccl_stream`) by exactly one modulo the configured number of
generations; the index stays in `[0, num_nccl_streams)`; and across `k`
consecutive batches it cycles through the generations in order, wrapping
after the configured count. -/
theorem generation_index_rotation (gs : HorovodGlobalState)
    (ctx : GPUOpContext) (entries : List TensorTableEntry)
    (pool : List FinalizerTask) (fhb : Bool) (ec : Option String) (k : Nat)
    (hG : 0 < gs.num_nccl_streams)
    (hlt : gs.current_nccl_stream < gs.num_nccl_streams) :
    ((FinalizeGPUQueue gs ctx entries pool fhb ec).1).current_nccl_stream
        = (gs.current_nccl_stream + 1) % gs.num_nccl_streams
    ∧ ((FinalizeGPUQueue gs ctx entries pool fhb ec).1).current_nccl_stream
        < gs.num_nccl_streams
    ∧ (iterFinalize k gs).current_nccl_stream
        = (gs.current_nccl_stream + k) % gs.num_nccl_streams := by
  refine ⟨rfl, ?_, iterFinalize_current_nccl k gs hG hlt⟩
  exact Nat.mod_lt _ hG

/-- C5 witness: from generation 0 of 2, one finalize moves to generation 1
and five consecutive finalizes land on generation `5 % 2 = 1`. -/
theorem generation_index_rotation_witness :
    ((FinalizeGPUQueue sampleGS defaultOpCtx [] [] true none).1).current_nccl_stream
        = (sampleGS.current_nccl_stream + 1) % sampleGS.num_nccl_streams
    ∧ ((FinalizeGPUQueue sampleGS defaultOpCtx [] [] true none).1).current_nccl_stream
        < sampleGS.num_nccl_streams
    ∧ (iterFinalize 5 sampleGS).current_nccl_stream
        = (sampleGS.current_nccl_stream + 5) % sampleGS.num_nccl_streams :=
  generation_index_rotation sampleGS defaultOpCtx [] [] true none 5
    (by decide) (by decide)

/-- C7: when the event wait completes without a device fault, the
finalizer task skips exactly the entries whose callback is null (Join
requests) without error, invokes every other entry's callback, and frees
the host scratch buffer exactly when `free_host_buffer` was requested and
the buffer pointer is non-null — never otherwise. -/
theorem finalizer_task_callbacks_and_buffer (t : FinalizerTask)
    (h : t.error_check = none) :
    ∃ out, runFinalizerTask t = Except.ok out
      ∧ (∀ e, e ∈ t.entries → e.hasCallback = true →
          (e.tensor_name, CommonStatus.okS) ∈ out.callbacks)
      ∧ (∀ p, p ∈ out.callbacks →
          ∃ e, e ∈ t.entries ∧ e.hasCallback = true
            ∧ p = (e.tensor_name, CommonStatus.okS))
      ∧ (out.freed_host_buffer = true ↔
          (t.free_host_buffer = true ∧ t.cpu_buffer.isSome = true)) := by
  refine ⟨{ freed_host_buffer := t.free_host_buffer && t.cpu_buffer.isSome,
            callbacks := t.entries.filterMap (fun e =>
              if e.hasCallback then some (e.tensor_name, CommonStatus.okS)
              else none) }, ?_, ?_, ?_, ?_⟩
  · simp [runFinalizerTask, WaitForEvents, h]
  · intro e he hcb
    simp only [List.mem_filterMap]
    exact ⟨e, he, by simp [hcb]⟩
  · intro p hp
    simp only [List.mem_filterMap] at hp
    obtain ⟨e, he, hpe⟩ := hp
    by_cases hcb : e.hasCallback
    · rw [if_pos hcb] at hpe
      cases hpe
      exact ⟨e, he, hcb, rfl⟩
    · rw [if_neg hcb] at hpe
      cases hpe
  · constructor
    · intro hf
      simpa [Bool.and_eq_true, Option.isSome] using hf
    · rintro ⟨h1, h2⟩
      simp [h1, h2]

/-- A task carrying one real entry and one Join (null-callback) entry,
with no host buffer and no device fault. -/
def sampleJoinTask : FinalizerTask :=
  { entries := [⟨"grad", 0, true⟩, ⟨"join", 0, false⟩],
    cpu_buffer := none, free_host_buffer := true,
    evt_queue := [("", 0)], error_check := none }

/-- C7 witness: on a batch with one real entry and one Join entry, the
task succeeds, invokes exactly the real entry's callback, and does not
free the (null) host buffer. -/
theorem finalizer_task_callbacks_and_buffer_witness :
    ∃ out, runFinalizerTask sampleJoinTask = Except.ok out
      ∧ (∀ e, e ∈ sampleJoinTask.entries → e.hasCallback = true →
          (e.tensor_name, CommonStatus.okS) ∈ out.callbacks)
      ∧ (∀ p, p ∈ out.callbacks →
          ∃ e, e ∈ sampleJoinTask.entries ∧ e.hasCallback = true
            ∧ p = (e.tensor_name, CommonStatus.okS))
      ∧ (out.freed_host_buffer = true ↔
          (sampleJoinTask.free_host_buffer = true
            ∧ sampleJoinTask.cpu_buffer.isSome = true)) :=
  finalizer_task_callbacks_and_buffer sampleJoinTask rfl

/-- The per-batch context of the C1 scenario: a queued marker, the
dedicated stream, a non-null host buffer. -/
def c1Ctx : GPUOpContext :=
  { event_queue := [("QUEUE", 0)], stream := (0, 8), host_buffer := some () }

/-- The three-entry fused batch of the C1 scenario, all callbacks
non-null. -/
def c1Entries : List TensorTableEntry :=
  [⟨"t0", 0, true⟩, ⟨"t1", 0, true⟩, ⟨"t2", 0, true⟩]

/-- The finalizer task `FinalizeGPUQueue` submits for the C1 scenario,
whose error check reports a hardware fault. -/
def faultedTask : FinalizerTask :=
  { entries := c1Entries, cpu_buffer := some (), free_host_buffer := true,
    evt_queue := [("QUEUE", 0), ("", 1)],
    error_check := some "hardware fault" }

/-- C1 (code bug): for the 3-entry fused batch whose error check reports a
hardware fault, `FinalizeGPUQueue` submits exactly the task shown, and
running that task aborts with the escaping fault: the loop that invokes
the completion callbacks (which can only ever pass `Status::OK()`) and the
`free(cpu_buffer)` call are both skipped, so no entry receives the failure
status and the buffer is not released — contrary to the claim and to the
spec's error-propagation policy. -/
theorem device_error_drops_callbacks_and_free :
    (FinalizeGPUQueue sampleGS c1Ctx c1Entries [] true
        (some "hardware fault")).2.1 = [faultedTask]
    ∧ runFinalizerTask faultedTask = Except.error "hardware fault" :=
  ⟨rfl, rfl⟩

/-- C8: every `AllocateZeros` call made with a non-negative element count
that returns an OK status yields a tensor whose bytes are all zero with no
write still pending on the device stream — i.e. the zeroing is observable
by the caller as soon as the call returns, on the CPU path (synchronous
`memset`) and on the device path (async memset followed by
`BlockHostUntilDone`); the device path relies on the kernel's device
context being present, which TensorFlow guarantees for kernels placed on a
GPU device. -/
theorem allocate_zeros_synchronous (context : OpKernelContext)
    (num_elements : Int) (dtype : HvdDataType) (raw : List Nat)
    (h0 : 0 ≤ num_elements)
    (hok : (AllocateZeros context num_elements dtype raw).status.type
        = StatusType.OK)
    (hdc : GetDeviceID context ≠ CPU_DEVICE_ID →
        context.hasDeviceContext = true) :
    (AllocateZeros context num_elements dtype raw).tensor
      = some { bytes := List.replicate raw.length 0, pendingOps := [] } := by
  by_cases ha : (context.allocOk && decide (0 ≤ num_elements)) = true
  · by_cases hd : GetDeviceID context ≠ CPU_DEVICE_ID
    · have hdct : context.hasDeviceContext = true := hdc hd
      simp [AllocateZeros, allocate_temp, ha, hd, hdct,
            gpuMemsetAsyncModel, BlockHostUntilDone]
    · simp only [not_not] at hd
      by_cases hdct : context.hasDeviceContext = true
      · simp [AllocateZeros, allocate_temp, ha, hd, hdct,
              memsetModel, BlockHostUntilDone]
      · simp [AllocateZeros, allocate_temp, ha, hd, hdct, memsetModel]
  · exfalso
    simp [AllocateZeros, allocate_temp, ha, ConvertStatusTFToCommon,
          CommonStatus.invalidArgument] at hok

/-- C8 witness: on a GPU-device kernel context with a working allocator, a
3-byte garbage buffer comes back all zero with nothing pending. -/
theorem allocate_zeros_synchronous_witness :
    (AllocateZeros ⟨0, true, true⟩ 3 HvdDataType.HOROVOD_FLOAT32
        [7, 7, 7]).tensor
      = some { bytes := List.replicate (List.length [7, 7, 7]) 0,
               pendingOps := [] } :=
  allocate_zeros_synchronous ⟨0, true, true⟩ 3 HvdDataType.HOROVOD_FLOAT32
    [7, 7, 7] (by norm_num) (by decide) (fun _ => rfl)

/-- C9: for every engine status whose type is OK, Unknown,
PreconditionFailed, Aborted or InvalidArgument, converting to a framework
status and back preserves the type, and for the non-OK types also the
reason text; every other engine status type is converted to the framework
Unknown code. -/
theorem status_conversion_roundtrip (s : CommonStatus) :
    ((s.type = StatusType.OK ∨ s.type = StatusType.UNKNOWN_ERROR
        ∨ s.type = StatusType.PRECONDITION_ERROR
        ∨ s.type = StatusType.ABORTED
        ∨ s.type = StatusType.INVALID_ARGUMENT) →
      ((ConvertStatusTFToCommon (ConvertStatusCommonToTF s)).type = s.type
        ∧ (s.type ≠ StatusType.OK →
            (ConvertStatusTFToCommon (ConvertStatusCommonToTF s)).reason
              = s.reason)))
    ∧ (¬(s.type = StatusType.OK ∨ s.type = StatusType.UNKNOWN_ERROR
        ∨ s.type = StatusType.PRECONDITION_ERROR
        ∨ s.type = StatusType.ABORTED
        ∨ s.type = StatusType.INVALID_ARGUMENT) →
      ((ConvertStatusCommonToTF s).code = TFCode.UNKNOWN
        ∧ (ConvertStatusCommonToTF s).error_message = "Unknown error.")) := by
  obtain ⟨t, r⟩ := s
  cases t <;>
    simp [ConvertStatusCommonToTF, ConvertStatusTFToCommon,
      CommonStatus.okS, CommonStatus.unknownError,
      CommonStatus.preconditionError, CommonStatus.abortedS,
      CommonStatus.invalidArgument]

/-- C9 witness: the Aborted status with reason "boom" round-trips to the
same type and reason. -/
theorem status_conversion_roundtrip_witness :
    (ConvertStatusTFToCommon
        (ConvertStatusCommonToTF ⟨StatusType.ABORTED, "boom"⟩)).type
      = StatusType.ABORTED
    ∧ (ConvertStatusTFToCommon
        (ConvertStatusCommonToTF ⟨StatusType.ABORTED, "boom"⟩)).reason
      = "boom" := by
  have h := (status_conversion_roundtrip ⟨StatusType.ABORTED, "boom"⟩).1
    (Or.inr (Or.inr (Or.inr (Or.inl rfl))))
  exact ⟨h.1, h.2 (by decide)⟩

end HorovodLibra
